import Mathlib

/-!
Shallow embedding of the btrd gateway (package `btrd` as shipped with the
`restapi` binary in `restapi/restapi.go`, plus the polling supervisor in
`restapi`'s `main`).

Conventions of the embedding:
* Go `byte` values are `Nat` below 256; where a Go byte operation can
  overflow (the `msb << 4` inside `ConvertTemp`) the truncation is written
  explicitly as `% 256`.
* Go `float64` arithmetic in `ConvertTemp` only ever touches multiples of
  1/16 with magnitude below 256, which `float64` represents exactly, so the
  value domain is modelled by `ℚ`.  The one non-finite float the code can
  produce, `math.NaN()` from `getFloat`, is modelled by a dedicated
  constructor `FVal.nan`.
* The serial port and the govaluate library are external effects; each
  one-command exchange is modelled by an oracle `Exchange` (did the write
  succeed, and which byte, if any, did the read return), and govaluate by
  an oracle `Govaluate` (does an expression parse, and what does it
  evaluate to on given parameters).
* Fallible methods return `Option GoErr × <new state>`: `none` in the first
  component is Go's `nil` error.
* Sleeps and port open/close calls made by the supervisor are recorded in a
  `List SupAction` trace.
-/

/-- Model of a Go `float64` cell: either NaN or an exactly-represented
rational (all finite floats this program computes are such rationals). -/
inductive FVal where
  | nan
  | q (x : ℚ)
deriving DecidableEq, Repr

/-- Errors returned by the btrd package (Go `error` values, by provenance). -/
inductive GoErr where
  | writeErr
  | readErr
  | parseErr
  | evalErr
  | typeErr
  | protocolErr (b : Nat)
  | ackErr
deriving DecidableEq, Repr

/-- A dynamically-typed value returned by govaluate's `Evaluate`
(`interface\x7b\x7d` in Go): a float, an int, or anything else (bool,
string, …).  Go's `float32` case of `getFloat` is subsumed by `float`. -/
inductive GoValue where
  | float (v : FVal)
  | int (n : Int)
  | other
deriving DecidableEq, Repr

/-- The function `getFloat` from the btrd package: floats and ints convert,
anything else yields `(math.NaN(), error)`. -/
def getFloat : GoValue → FVal × Option GoErr
  | .float v => (v, none)
  | .int n => (.q n, none)
  | .other => (.nan, some .typeErr)

/-- The function `ConvertTemp` from the btrd package.  `msb` and `lsb` are
bytes (callers pass values < 256).  Go evaluates `msb << 4 & 127` on
`byte`, so the shift truncates modulo 256 before the mask. -/
def ConvertTemp (msb lsb : Nat) : ℚ :=
  let tsign := msb >>> 7
  let tremain : ℚ := ((lsb &&& 15 : Nat) : ℚ) * (0.0625 : ℚ)
  let tcom : Nat := (((msb <<< 4) % 256) &&& 127) ||| (lsb >>> 4)
  let temp : ℚ := (tcom : ℚ) + tremain
  if tsign = 1 then -(128 - temp) else temp

/-- The spec's decode formula, written from its words: `sign = bit 7 of
MSB`; `fraction = (LSB & 0x0F) * 0.0625`; `magnitude = ((MSB << 4) & 0x7F)
| (LSB >> 4)` (no byte truncation is mentioned, so none is applied);
`value = magnitude + fraction` if `sign == 0`, else
`-(128 - (magnitude + fraction))`. -/
def specTempDecode (msb lsb : Nat) : ℚ :=
  let sign := (msb >>> 7) &&& 1
  let fraction : ℚ := ((lsb &&& 15 : Nat) : ℚ) * (0.0625 : ℚ)
  let magnitude : Nat := ((msb <<< 4) &&& 127) ||| (lsb >>> 4)
  if sign = 0 then (magnitude : ℚ) + fraction
  else -(128 - ((magnitude : ℚ) + fraction))

/-- One request/response exchange on a device's serial port, as an oracle:
did the `Write` of the command succeed, and what did the 1-byte `Read`
return (`none` = read error/timeout, `some b` = the byte read). -/
structure Exchange where
  writeOk : Bool
  readByte : Option Nat
deriving DecidableEq, Repr

/-- The govaluate library as an oracle: `parse e` models
`NewEvaluableExpression(e)` (`none` = parse error); `eval e adcval vref`
models `Evaluate` on the parsed expression with the two parameters
(`none` = evaluation error). -/
structure Govaluate where
  parse : String → Option Unit
  eval : String → ℚ → ℚ → Option GoValue

/-- The `ADC` struct: configuration fields plus the cached `value`
(unexported in Go, zero-initialised to 0.0). -/
structure ADC where
  ID : String
  Vref : ℚ
  Cmdget : String
  Expr : String
  value : FVal
deriving DecidableEq, Repr

/-- The `Tmpt` struct: configuration fields plus the cached `value`. -/
structure Tmpt where
  ID : String
  Cmdlsb : String
  Cmdmsb : String
  value : FVal
deriving DecidableEq, Repr

/-- The `Swt` struct: configuration fields plus the cached `value`
(a Go `int`, zero-initialised to 0). -/
structure Swt where
  ID : String
  Cmdget : String
  Cmdset : String
  Cmdclr : String
  value : Int
deriving DecidableEq, Repr

/-- Method `ADC.Value`: returns the cached value (under `valmux.RLock`). -/
def ADC.Value (a : ADC) : FVal := a.value

/-- Method `Tmpt.Value`: returns the cached value. -/
def Tmpt.Value (t : Tmpt) : FVal := t.value

/-- Method `Swt.Value`: returns the cached value. -/
def Swt.Value (sw : Swt) : Int := sw.value

/-- Method `ADC.ReadValue`: write `Cmdget`, read one byte, parse `Expr`,
evaluate it on `adcval`/`vref`, then `a.value, err = getFloat(result)` —
note the assignment to the cache happens before the `err` check, so a
non-numeric result both stores NaN and returns the error. -/
def ADC.ReadValue (gov : Govaluate) (ex : Exchange) (a : ADC) :
    Option GoErr × ADC :=
  if ex.writeOk then
    match ex.readByte with
    | none => (some .readErr, a)
    | some val =>
      match gov.parse a.Expr with
      | none => (some .parseErr, a)
      | some _ =>
        match gov.eval a.Expr (val : ℚ) a.Vref with
        | none => (some .evalErr, a)
        | some result =>
          match getFloat result with
          | (v, e) => (e, { a with value := v })
  else (some .writeErr, a)

/-- Method `Tmpt.ReadValue`: write `Cmdlsb`, read LSB, write `Cmdmsb`,
read MSB, then store `ConvertTemp msb lsb`; every failure returns before
the cache is touched. -/
def Tmpt.ReadValue (e1 e2 : Exchange) (t : Tmpt) : Option GoErr × Tmpt :=
  if e1.writeOk then
    match e1.readByte with
    | none => (some .readErr, t)
    | some lsb =>
      if e2.writeOk then
        match e2.readByte with
        | none => (some .readErr, t)
        | some msb => (none, { t with value := .q (ConvertTemp msb lsb) })
      else (some .writeErr, t)
  else (some .writeErr, t)

/-- Method `Swt.ReadValue`: write `Cmdget`, read one byte; a byte other
than 0 or 1 is a protocol failure returned before the cache is touched;
otherwise the byte is stored as the cached `int` value. -/
def Swt.ReadValue (ex : Exchange) (sw : Swt) : Option GoErr × Swt :=
  if ex.writeOk then
    match ex.readByte with
    | none => (some .readErr, sw)
    | some b =>
      if b ≠ 0 ∧ b ≠ 1 then (some (.protocolErr b), sw)
      else (none, { sw with value := (b : Int) })
  else (some .writeErr, sw)

/-- Method `Swt.SetBit`: write `Cmdset`, read the 1-byte acknowledgement,
which must be `'K'` (75); the cached value is never written. -/
def Swt.SetBit (ex : Exchange) (sw : Swt) : Option GoErr × Swt :=
  if ex.writeOk then
    match ex.readByte with
    | none => (some .readErr, sw)
    | some b => if b = 75 then (none, sw) else (some .ackErr, sw)
  else (some .writeErr, sw)

/-- Method `Swt.ClearBit`: write `Cmdclr`, read the 1-byte acknowledgement,
which must be `'K'` (75); the cached value is never written. -/
def Swt.ClearBit (ex : Exchange) (sw : Swt) : Option GoErr × Swt :=
  if ex.writeOk then
    match ex.readByte with
    | none => (some .readErr, sw)
    | some b => if b = 75 then (none, sw) else (some .ackErr, sw)
  else (some .writeErr, sw)

/-- An `ADC` as produced by `loadConfig`: the toml decoder fills the tagged
fields and leaves the unexported `value` at Go's zero value 0.0. -/
def mkADC (id : String) (vref : ℚ) (cmdget expr : String) : ADC :=
  ⟨id, vref, cmdget, expr, .q 0⟩

/-- A `Tmpt` as produced by `loadConfig`: cached value starts at 0.0. -/
def mkTmpt (id cmdlsb cmdmsb : String) : Tmpt :=
  ⟨id, cmdlsb, cmdmsb, .q 0⟩

/-- A `Swt` as produced by `loadConfig`: cached value starts at 0. -/
def mkSwt (id cmdget cmdset cmdclr : String) : Swt :=
  ⟨id, cmdget, cmdset, cmdclr, 0⟩

/-- The switch branch of `readHandler` for a known switch item: value 1
renders as "true", 0 as "false", and any other value falls through with no
response from this branch. -/
def renderSwt (v : Int) : Option String :=
  if v = 1 then some "true\n" else if v = 0 then some "false\n" else none

/-- Constant `maxerrors` from `restapi`. -/
def maxerrors : Nat := 3

/-- Constant `failtimeout` from `restapi`, in seconds. -/
def failtimeoutSeconds : Nat := 30

/-- Constant `errpause` from `restapi`, in seconds. -/
def errpauseSeconds : Nat := 4

/-- Externally visible effects of the polling goroutine, recorded as a
trace. -/
inductive SupAction where
  | sleepSeconds (n : Nat)
  | closePort
  | reopenPort (ok : Bool)
deriving DecidableEq, Repr

/-- The `Btdev` struct: identity, connection parameters, the item lists,
and whether the serial port handle is currently usable (`serport` set by a
successful `OpenPort`). -/
structure Btdev where
  ID : String
  Devfile : String
  Baud : Nat
  ADCs : List ADC
  Tmpts : List Tmpt
  Swts : List Swt
  portOpen : Bool
deriving DecidableEq, Repr

/-- Oracle for one full poll cycle of a device: govaluate behaviour, the
exchange outcome for the i-th analog / temperature (two exchanges) /
switch item, and whether the `OpenPort` attempted during fault recovery
would succeed. -/
structure CycleEnv where
  gov : Govaluate
  adcEx : Nat → Exchange
  tmptEx : Nat → Exchange × Exchange
  swtEx : Nat → Exchange
  reopenOk : Bool

/-- One iteration of the supervisor's analog loop body: on error, sleep
`errpause` and increment the consecutive-failure counter; on success,
reset the counter to 0. -/
def pollAdcStep (gov : Govaluate) (ex : Exchange) (a : ADC) (c : Nat) :
    ADC × Nat × List SupAction :=
  match ADC.ReadValue gov ex a with
  | (some _, a2) => (a2, c + 1, [SupAction.sleepSeconds errpauseSeconds])
  | (none, a2) => (a2, 0, [])

/-- The supervisor's analog loop over the device's ADC list (item `i`
uses exchange `env i`). -/
def pollAdcs (gov : Govaluate) (env : Nat → Exchange) :
    List ADC → Nat → Nat → List ADC × Nat × List SupAction
  | [], _, c => ([], c, [])
  | a :: rest, i, c =>
    let r := pollAdcStep gov (env i) a c
    let rr := pollAdcs gov env rest (i + 1) r.2.1
    (r.1 :: rr.1, rr.2.1, r.2.2 ++ rr.2.2)

/-- One iteration of the supervisor's temperature loop body. -/
def pollTmptStep (e1 e2 : Exchange) (t : Tmpt) (c : Nat) :
    Tmpt × Nat × List SupAction :=
  match Tmpt.ReadValue e1 e2 t with
  | (some _, t2) => (t2, c + 1, [SupAction.sleepSeconds errpauseSeconds])
  | (none, t2) => (t2, 0, [])

/-- The supervisor's temperature loop over the device's Tmpt list. -/
def pollTmpts (env : Nat → Exchange × Exchange) :
    List Tmpt → Nat → Nat → List Tmpt × Nat × List SupAction
  | [], _, c => ([], c, [])
  | t :: rest, i, c =>
    let r := pollTmptStep (env i).1 (env i).2 t c
    let rr := pollTmpts env rest (i + 1) r.2.1
    (r.1 :: rr.1, rr.2.1, r.2.2 ++ rr.2.2)

/-- One iteration of the supervisor's switch loop body. -/
def pollSwtStep (ex : Exchange) (sw : Swt) (c : Nat) :
    Swt × Nat × List SupAction :=
  match Swt.ReadValue ex sw with
  | (some _, sw2) => (sw2, c + 1, [SupAction.sleepSeconds errpauseSeconds])
  | (none, sw2) => (sw2, 0, [])

/-- The supervisor's switch loop over the device's Swt list. -/
def pollSwts (env : Nat → Exchange) :
    List Swt → Nat → Nat → List Swt × Nat × List SupAction
  | [], _, c => ([], c, [])
  | sw :: rest, i, c =>
    let r := pollSwtStep (env i) sw c
    let rr := pollSwts env rest (i + 1) r.2.1
    (r.1 :: rr.1, rr.2.1, r.2.2 ++ rr.2.2)

/-- The item phase of one supervisor cycle: all ADCs, then all Tmpts, then
all Swts, threading the consecutive-failure counter through in that fixed
order.  Returns the updated device, the counter, and the action trace. -/
def pollItems (d : Btdev) (c : Nat) (env : CycleEnv) :
    Btdev × Nat × List SupAction :=
  let ra := pollAdcs env.gov env.adcEx d.ADCs 0 c
  let rt := pollTmpts env.tmptEx d.Tmpts 0 ra.2.1
  let rs := pollSwts env.swtEx d.Swts 0 rt.2.1
  ({ d with ADCs := ra.1, Tmpts := rt.1, Swts := rs.1 }, rs.2.1,
    ra.2.2 ++ (rt.2.2 ++ rs.2.2))

/-- The end-of-cycle fault check of the supervisor: if the counter exceeds
`maxerrors`, close the port, sleep `failtimeout`, attempt to reopen
(logging only on failure), and reset the counter to 0 unconditionally. -/
def cycleEnd (d : Btdev) (c : Nat) (reopenOk : Bool) :
    Btdev × Nat × List SupAction :=
  if c > maxerrors then
    ({ d with portOpen := reopenOk }, 0,
      [SupAction.closePort, SupAction.sleepSeconds failtimeoutSeconds,
        SupAction.reopenPort reopenOk])
  else (d, c, [])

/-- One full pass of the supervisor's infinite `for` loop: the item phase
followed by the fault check.  The next iteration continues from the
returned state. -/
def pollCycle (d : Btdev) (c : Nat) (env : CycleEnv) :
    Btdev × Nat × List SupAction :=
  let r := pollItems d c env
  let e := cycleEnd r.1 r.2.1 env.reopenOk
  (e.1, e.2.1, r.2.2 ++ e.2.2)

/-- Concrete exchange: write succeeded and byte 0 was read. -/
def exZero : Exchange := ⟨true, some 0⟩

/-- Concrete exchange: the write itself failed. -/
def exFail : Exchange := ⟨false, none⟩

/-- Concrete exchange: write succeeded, byte 7 read (invalid for a
switch). -/
def exByte7 : Exchange := ⟨true, some 7⟩

/-- Concrete exchange: write succeeded, acknowledgement byte `'K'` read. -/
def exAckK : Exchange := ⟨true, some 75⟩

/-- Concrete freshly-loaded ADC item. -/
def adc0 : ADC := ⟨"a0", 5, "g", "adcval * (vref / 256)", .q 0⟩

/-- Concrete freshly-loaded temperature item. -/
def tmpt0 : Tmpt := ⟨"t0", "l", "m", .q 0⟩

/-- Concrete switch item whose cached value is 1 (true). -/
def swOn : Swt := ⟨"s0", "g", "s", "c", 1⟩

/-- Govaluate oracle that parses everything and evaluates the expression
to the float 0.0 (the value of `adcval * (vref / 256)` at `adcval = 0`). -/
def gov0 : Govaluate := ⟨fun _ => some (), fun _ _ _ => some (.float (.q 0))⟩

/-- Govaluate oracle whose evaluation yields a non-numeric (e.g. boolean)
result. -/
def govBad : Govaluate := ⟨fun _ => some (), fun _ _ _ => some .other⟩

/-- Govaluate oracle that fails to parse every expression. -/
def govParseFail : Govaluate := ⟨fun _ => none, fun _ _ _ => none⟩

/-- Concrete device with four switches, used to drive the supervisor into
the fault-recovery path. -/
def dev0 : Btdev := ⟨"dev0", "/dev/ttyUSB0", 9600, [], [], [swOn, swOn, swOn, swOn], true⟩

/-- Cycle oracle under which every exchange fails at the write and the
reopen attempt also fails. -/
def envFail : CycleEnv := ⟨gov0, fun _ => exFail, fun _ => (exFail, exFail), fun _ => exFail, false⟩

/-- Characterisation of the one analog failure mode that reaches the
`a.value, err = getFloat(result)` assignment: the write and read both
succeeded, the expression parsed and evaluated, and the evaluation result
is one `getFloat` rejects (a non-numeric result). -/
def NonNumericResult (gov : Govaluate) (ex : Exchange) (a : ADC) : Prop :=
  ex.writeOk = true ∧ ∃ b r, ex.readByte = some b ∧
    gov.parse a.Expr ≠ none ∧
    gov.eval a.Expr (b : ℚ) a.Vref = some r ∧ (getFloat r).2.isSome = true

set_option maxRecDepth 4096 in
/-- Bit-level facts about a byte used to align `ConvertTemp` with the
spec formula: the mod-256 truncation is absorbed by the `& 127` mask, the
top bit is its own low bit after `>> 7`, and `>> 7` of a byte is 0 or 1. -/
theorem byteShiftFacts : ∀ m : Fin 256,
    (((m.val <<< 4) % 256) &&& 127 = (m.val <<< 4) &&& 127) ∧
    ((m.val >>> 7) &&& 1 = m.val >>> 7) ∧
    (m.val >>> 7 = 0 ∨ m.val >>> 7 = 1) := by decide

/-- Claim C2 counterexample: on MSB = 0x19, LSB = 0x01 the code does NOT
return 25.0625 — the byte-width shift `0x19 << 4` keeps only the low
nibble of the MSB, giving integer part 16, not 25. -/
theorem convertTemp_literal_pos_cex : ConvertTemp 0x19 0x01 ≠ (25.0625 : ℚ) := by
  have h1 : (((0x19 <<< 4) % 256) &&& 127) ||| (0x01 >>> 4) = 16 := by decide
  have h2 : (0x19 : Nat) >>> 7 = 0 := by decide
  simp only [ConvertTemp, h1, h2]
  norm_num

/-- Claim C2 amended: on MSB = 0x19, LSB = 0x01 (sign bit 0) `ConvertTemp`
returns exactly 16.0625. -/
theorem convertTemp_literal_pos : ConvertTemp 0x19 0x01 = (16.0625 : ℚ) := by
  have h1 : (((0x19 <<< 4) % 256) &&& 127) ||| (0x01 >>> 4) = 16 := by decide
  have h2 : (0x19 : Nat) >>> 7 = 0 := by decide
  simp only [ConvertTemp, h1, h2]
  norm_num

/-- Claim C3 counterexample: on MSB = 0x91, LSB = 0x00 the code does NOT
return −111: `(0x91 << 4) & 0x7F` is 16 (not 17), so the result is
−(128 − 16). -/
theorem convertTemp_literal_neg_cex : ConvertTemp 0x91 0x00 ≠ (-111 : ℚ) := by
  have h1 : (((0x91 <<< 4) % 256) &&& 127) ||| (0x00 >>> 4) = 16 := by decide
  have h2 : (0x91 : Nat) >>> 7 = 1 := by decide
  simp only [ConvertTemp, h1, h2]
  norm_num

/-- Claim C3 amended: on MSB = 0x91, LSB = 0x00 (sign bit set) the
magnitude term is 16 and `ConvertTemp` returns −(128 − 16) = −112. -/
theorem convertTemp_literal_neg :
    ConvertTemp 0x91 0x00 = -(128 - 16 : ℚ) ∧ ConvertTemp 0x91 0x00 = (-112 : ℚ) := by
  have h1 : (((0x91 <<< 4) % 256) &&& 127) ||| (0x00 >>> 4) = 16 := by decide
  have h2 : (0x91 : Nat) >>> 7 = 1 := by decide
  constructor <;> · simp only [ConvertTemp, h1, h2]; norm_num

/-- Claim C4: for every pair of bytes, `ConvertTemp` computes exactly the
spec's formula (sign = bit 7 of MSB, fraction = (LSB & 0x0F)·0.0625,
magnitude = ((MSB << 4) & 0x7F) | (LSB >> 4), negated via 128 − · when
the sign bit is set).  The byte truncation in the code's shift is
invisible through the `& 0x7F` mask, so the two agree bit-for-bit. -/
theorem convertTemp_matches_spec (msb lsb : Nat)
    (hm : msb < 256) (_hl : lsb < 256) :
    ConvertTemp msb lsb = specTempDecode msb lsb := by
  obtain ⟨h1, h2, h3⟩ := byteShiftFacts ⟨msb, hm⟩
  simp only [ConvertTemp, specTempDecode, h1, h2]
  rcases h3 with h | h <;> simp [h]

/-- Claim C4 witness: the general equivalence instantiated at the
sign-bit-set byte pair (0x91, 0x00). -/
theorem convertTemp_matches_spec_witness :
    ConvertTemp 0x91 0x00 = specTempDecode 0x91 0x00 :=
  convertTemp_matches_spec 0x91 0x00 (by decide) (by decide)

/-- Claim C5: a successful `SetBit` or `ClearBit` leaves the switch's
cached value unchanged, so a `Value` read immediately after the successful
set, with no intervening poll cycle, still returns the pre-set cached
value. -/
theorem swt_set_preserves_cache (ex : Exchange) (sw : Swt) :
    ((Swt.SetBit ex sw).1 = none → (Swt.SetBit ex sw).2.Value = sw.Value) ∧
    ((Swt.ClearBit ex sw).1 = none → (Swt.ClearBit ex sw).2.Value = sw.Value) := by
  rcases ex with ⟨w, rb⟩
  cases w <;> rcases rb with _ | b <;> simp [Swt.SetBit, Swt.ClearBit, Swt.Value]
  by_cases hb : b = 75 <;> simp [hb]

/-- Claim C5 witness: after a successful set acknowledged with `'K'` on a
switch cached as 1, the cached value is still 1's reading. -/
theorem swt_set_preserves_cache_witness :
    (Swt.SetBit exAckK swOn).2.Value = swOn.Value ∧
    (Swt.ClearBit exAckK swOn).2.Value = swOn.Value :=
  ⟨(swt_set_preserves_cache exAckK swOn).1 rfl,
   (swt_set_preserves_cache exAckK swOn).2 rfl⟩

/-- Claim C6: on a get exchange whose response byte is neither 0 nor 1,
`Swt.ReadValue` returns the protocol error and the cached value is left
unchanged; on a response byte 0 or 1 the cached value becomes that byte. -/
theorem swt_get_protocol (ex : Exchange) (sw : Swt) (b : Nat)
    (hw : ex.writeOk = true) (hr : ex.readByte = some b) :
    (b ≠ 0 → b ≠ 1 → Swt.ReadValue ex sw = (some (GoErr.protocolErr b), sw)) ∧
    ((b = 0 ∨ b = 1) → Swt.ReadValue ex sw = (none, { sw with value := (b : Int) })) := by
  constructor
  · intro h0 h1
    simp [Swt.ReadValue, hw, hr, h0, h1]
  · rintro (rfl | rfl) <;> simp [Swt.ReadValue, hw, hr]

/-- Claim C6 witness: byte 7 fails and leaves the cache at 1; byte 0
succeeds and stores 0. -/
theorem swt_get_protocol_witness :
    Swt.ReadValue exByte7 swOn = (some (GoErr.protocolErr 7), swOn) ∧
    Swt.ReadValue exZero swOn = (none, { swOn with value := (0 : Int) }) :=
  ⟨(swt_get_protocol exByte7 swOn 7 rfl rfl).1 (by decide) (by decide),
   (swt_get_protocol exZero swOn 0 rfl rfl).2 (Or.inl rfl)⟩

/-- Claim C7 counterexample: before any poll, `adc0.Value` is plain 0.0
(Go's zero value for the unexported field), and a perfectly ordinary
successful exchange (raw byte 0 whose formula result is the float 0.0)
decodes to exactly that same cached state: the pre-first-poll reading is
NOT a distinguishable "unknown" value, and no tri-state exists. -/
theorem cache_no_unknown_cex :
    ADC.Value adc0 = FVal.q 0 ∧ ADC.ReadValue gov0 exZero adc0 = (none, adc0) :=
  ⟨rfl, rfl⟩

/-- Claim C7 amended: a cache read before the first successful poll
returns the Go zero value of the field — 0.0 for analog and temperature
items, 0 (rendered "false") for switches — which coincides with
legitimate decoded readings rather than being distinct from them. -/
theorem cache_starts_at_zero (id : String) (vref : ℚ)
    (cg exr cl cm cs cc : String) :
    (mkADC id vref cg exr).Value = FVal.q 0 ∧
    (mkTmpt id cl cm).Value = FVal.q 0 ∧
    (mkSwt id cg cs cc).Value = 0 :=
  ⟨rfl, rfl, rfl⟩

/-- Claim C9: the switch cache is always 0 or 1 — it starts at 0, and
`ReadValue`, `SetBit`, `ClearBit` all preserve membership in \x7b0, 1\x7d —
and on any such value the read dispatcher's true/false rendering is
defined (always produces a response). -/
theorem swt_value_invariant :
    (∀ id cg cs cc, (mkSwt id cg cs cc).Value = 0 ∨ (mkSwt id cg cs cc).Value = 1) ∧
    (∀ ex sw, (Swt.Value sw = 0 ∨ Swt.Value sw = 1) →
      ((Swt.ReadValue ex sw).2.Value = 0 ∨ (Swt.ReadValue ex sw).2.Value = 1)) ∧
    (∀ ex sw, (Swt.Value sw = 0 ∨ Swt.Value sw = 1) →
      ((Swt.SetBit ex sw).2.Value = 0 ∨ (Swt.SetBit ex sw).2.Value = 1)) ∧
    (∀ ex sw, (Swt.Value sw = 0 ∨ Swt.Value sw = 1) →
      ((Swt.ClearBit ex sw).2.Value = 0 ∨ (Swt.ClearBit ex sw).2.Value = 1)) ∧
    (∀ v : Int, (v = 0 ∨ v = 1) → (renderSwt v).isSome = true) := by
  refine ⟨fun id cg cs cc => Or.inl rfl, ?_, ?_, ?_, ?_⟩
  · rintro ⟨w, rb⟩ sw h
    cases w <;> rcases rb with _ | b <;>
      simp [Swt.ReadValue, Swt.Value] at h ⊢ <;> try exact h
    by_cases h0 : b = 0
    · subst h0; simp
    · by_cases h1 : b = 1
      · subst h1; simp
      · simp [h0, h1]; exact h
  · rintro ⟨w, rb⟩ sw h
    cases w <;> rcases rb with _ | b <;>
      simp [Swt.SetBit, Swt.Value] at h ⊢ <;> first
        | exact h
        | by_cases hb : b = 75 <;> simp [hb] <;> exact h
  · rintro ⟨w, rb⟩ sw h
    cases w <;> rcases rb with _ | b <;>
      simp [Swt.ClearBit, Swt.Value] at h ⊢ <;> first
        | exact h
        | by_cases hb : b = 75 <;> simp [hb] <;> exact h
  · rintro v (rfl | rfl) <;> simp [renderSwt]

/-- Claim C9 witness: the invariant steps instantiated on concrete
exchanges and the switch cached at 1, plus the rendering of 1. -/
theorem swt_value_invariant_witness :
    ((Swt.ReadValue exZero swOn).2.Value = 0 ∨ (Swt.ReadValue exZero swOn).2.Value = 1) ∧
    ((Swt.SetBit exAckK swOn).2.Value = 0 ∨ (Swt.SetBit exAckK swOn).2.Value = 1) ∧
    ((Swt.ClearBit exAckK swOn).2.Value = 0 ∨ (Swt.ClearBit exAckK swOn).2.Value = 1) ∧
    (renderSwt 1).isSome = true :=
  ⟨swt_value_invariant.2.1 exZero swOn (Or.inr rfl),
   swt_value_invariant.2.2.1 exAckK swOn (Or.inr rfl),
   swt_value_invariant.2.2.2.1 exAckK swOn (Or.inr rfl),
   swt_value_invariant.2.2.2.2 1 (Or.inr rfl)⟩

/-- Claim C10 counterexample: when the expression evaluates to a
non-numeric value, `ADC.ReadValue` returns an error AND overwrites the
cached value with NaN (`a.value, err = getFloat(result)` assigns before
the error check), so an erroring read does not leave the cache
unchanged. -/
theorem adc_error_writes_nan_cex :
    (ADC.ReadValue govBad exZero adc0).1 = some GoErr.typeErr ∧
    (ADC.ReadValue govBad exZero adc0).2.value = FVal.nan ∧
    adc0.value = FVal.q 0 :=
  ⟨rfl, rfl, rfl⟩

/-- Claim C10 amended: whenever `Tmpt.ReadValue` returns an error the
temperature cache is unchanged; whenever `ADC.ReadValue` returns an error
the analog cache is unchanged, EXCEPT in the one non-numeric-result case
(`NonNumericResult`): exactly there the error returned is `getFloat`'s
type error and the cache is overwritten with NaN. -/
theorem readvalue_error_cache_policy (gov : Govaluate) (ex e1 e2 : Exchange)
    (a : ADC) (t : Tmpt) :
    ((Tmpt.ReadValue e1 e2 t).1.isSome = true → (Tmpt.ReadValue e1 e2 t).2 = t) ∧
    ((ADC.ReadValue gov ex a).1.isSome = true → ¬ NonNumericResult gov ex a →
      (ADC.ReadValue gov ex a).2 = a) ∧
    (NonNumericResult gov ex a →
      (ADC.ReadValue gov ex a).1 = some GoErr.typeErr ∧
      (ADC.ReadValue gov ex a).2 = { a with value := FVal.nan }) := by
  refine ⟨?_, ?_, ?_⟩
  · intro h
    rcases e1 with ⟨w1, rb1⟩
    rcases e2 with ⟨w2, rb2⟩
    cases w1 <;> rcases rb1 with _ | lsb <;> cases w2 <;> rcases rb2 with _ | msb <;>
      simp [Tmpt.ReadValue] at h ⊢
  · intro h hnn
    rcases ex with ⟨w, rb⟩
    cases w <;> rcases rb with _ | b <;> simp [ADC.ReadValue] at h ⊢
    rcases hp : gov.parse a.Expr with _ | u
    · simp [hp]
    · rcases he : gov.eval a.Expr (b : ℚ) a.Vref with _ | r
      · simp [hp, he]
      · rcases r with v | n | _
        · simp [hp, he, getFloat] at h ⊢
        · simp [hp, he, getFloat] at h ⊢
        · exact absurd
            (show NonNumericResult gov ⟨true, some b⟩ a from
              ⟨rfl, b, GoValue.other, rfl, by simp [hp], he, rfl⟩) hnn
  · rintro ⟨hw, b, r, hrb, hp, he, hg⟩
    rcases hpp : gov.parse a.Expr with _ | u
    · exact absurd hpp hp
    · rcases r with v | n | _
      · simp [getFloat] at hg
      · simp [getFloat] at hg
      · constructor <;> simp [ADC.ReadValue, hw, hrb, hpp, he, getFloat]

/-- Claim C10 amended witness: a failed temperature write leaves the
temperature cache unchanged; a failed analog write (not a non-numeric
result) leaves the analog cache unchanged; and a non-numeric result
returns the type error while overwriting the cache with NaN. -/
theorem readvalue_error_cache_policy_witness :
    (Tmpt.ReadValue exFail exFail tmpt0).2 = tmpt0 ∧
    (ADC.ReadValue gov0 exFail adc0).2 = adc0 ∧
    ((ADC.ReadValue govBad exZero adc0).1 = some GoErr.typeErr ∧
      (ADC.ReadValue govBad exZero adc0).2 = { adc0 with value := FVal.nan }) :=
  ⟨(readvalue_error_cache_policy gov0 exFail exFail exFail adc0 tmpt0).1 rfl,
   (readvalue_error_cache_policy gov0 exFail exFail exFail adc0 tmpt0).2.1 rfl
     (fun hnn => by simp [NonNumericResult, exFail] at hnn),
   (readvalue_error_cache_policy govBad exZero exFail exFail adc0 tmpt0).2.2
     ⟨rfl, 0, GoValue.other, rfl, fun hc => Option.noConfusion hc, rfl, rfl⟩⟩

/-- Claim C8: when the exchange succeeded but the conversion expression
fails to parse, fails to evaluate, or evaluates to a non-numeric result,
`ADC.ReadValue` returns an error (it never aborts), and the supervisor's
per-item step catches it and folds it into the consecutive-failure
counter: the counter is incremented by one and the inter-item pause is
slept, after which polling proceeds with the next item. -/
theorem adc_expr_failure_counted (gov : Govaluate) (ex : Exchange) (a : ADC)
    (c b : Nat) (hw : ex.writeOk = true) (hr : ex.readByte = some b)
    (hfail : gov.parse a.Expr = none ∨ gov.eval a.Expr (b : ℚ) a.Vref = none ∨
      ∃ r, gov.eval a.Expr (b : ℚ) a.Vref = some r ∧ (getFloat r).2.isSome = true) :
    (ADC.ReadValue gov ex a).1.isSome = true ∧
    (pollAdcStep gov ex a c).2.1 = c + 1 ∧
    (pollAdcStep gov ex a c).2.2 = [SupAction.sleepSeconds errpauseSeconds] := by
  have hsome : (ADC.ReadValue gov ex a).1.isSome = true := by
    rcases hfail with hp | he | ⟨r, her, hgf⟩
    · simp [ADC.ReadValue, hw, hr, hp]
    · rcases hpp : gov.parse a.Expr with _ | u
      · simp [ADC.ReadValue, hw, hr, hpp]
      · simp [ADC.ReadValue, hw, hr, hpp, he]
    · rcases hpp : gov.parse a.Expr with _ | u
      · simp [ADC.ReadValue, hw, hr, hpp]
      · rcases hg : getFloat r with ⟨v, oe⟩
        rcases oe with _ | e2
        · rw [hg] at hgf; simp at hgf
        · simp [ADC.ReadValue, hw, hr, hpp, her, hg]
  have hstep : pollAdcStep gov ex a c =
      ((ADC.ReadValue gov ex a).2, c + 1, [SupAction.sleepSeconds errpauseSeconds]) := by
    unfold pollAdcStep
    rcases hv : ADC.ReadValue gov ex a with ⟨oe, a2⟩
    rcases oe with _ | e
    · rw [hv] at hsome; simp at hsome
    · simp [hv]
  exact ⟨hsome, by rw [hstep], by rw [hstep]⟩

/-- Claim C8 witness: a parse failure on the concrete item is returned as
an error and counted: the counter goes from 0 to 1. -/
theorem adc_expr_failure_counted_witness :
    (ADC.ReadValue govParseFail exZero adc0).1.isSome = true ∧
    (pollAdcStep govParseFail exZero adc0 0).2.1 = 0 + 1 ∧
    (pollAdcStep govParseFail exZero adc0 0).2.2 = [SupAction.sleepSeconds errpauseSeconds] :=
  adc_expr_failure_counted govParseFail exZero adc0 0 0 rfl rfl (Or.inl rfl)

/-- Claim C1: whenever the consecutive-failure counter exceeds the fixed
threshold `maxerrors = 3` at the end of a cycle's item phase, the
supervisor closes the port, sleeps the fixed `failtimeout` of 30 seconds,
attempts to reopen, and resets the counter to 0 — regardless of whether
the reopen succeeded (`env.reopenOk` is universally quantified) — and the
returned state is the one the next cycle of the infinite loop continues
from. -/
theorem supervisor_fault_recovery (d : Btdev) (c : Nat) (env : CycleEnv)
    (h : (pollItems d c env).2.1 > maxerrors) :
    pollCycle d c env =
      ({ (pollItems d c env).1 with portOpen := env.reopenOk }, 0,
        (pollItems d c env).2.2 ++
          [SupAction.closePort, SupAction.sleepSeconds failtimeoutSeconds,
            SupAction.reopenPort env.reopenOk]) := by
  simp [pollCycle, cycleEnd, h]

/-- Claim C1 witness: a device with four switches whose exchanges all fail
reaches counter 4 > 3, and the fault path runs even though the reopen
attempt fails. -/
theorem supervisor_fault_recovery_witness :
    pollCycle dev0 0 envFail =
      ({ (pollItems dev0 0 envFail).1 with portOpen := envFail.reopenOk }, 0,
        (pollItems dev0 0 envFail).2.2 ++
          [SupAction.closePort, SupAction.sleepSeconds failtimeoutSeconds,
            SupAction.reopenPort envFail.reopenOk]) :=
  supervisor_fault_recovery dev0 0 envFail (by decide)
